import Mathlib

/-!
Shallow embedding of the Contact Form API (`src/main.py`).

The service is a single FastAPI endpoint `POST /api/contact` that validates
a contact-form submission, sends a notification email to a fixed recipient,
then a best-effort confirmation email to the submitter.

Modelling decisions:
* The request body is a `RawForm` of optional fields; FastAPI/pydantic
  validation (`ContactForm(BaseModel)` with an `EmailStr` field) is modelled
  by `parseContactForm`, which fails (HTTP 422) when a required field is
  absent from the request body or the email field fails syntax validation.
  Pydantic `str` fields accept empty strings, so the model does too.
* `EMAIL_CONFIG` and `RECIPIENT_EMAIL` are read from the environment; they
  are modelled as explicit parameters (`EmailConfig`, `rec : Option String`).
  Python truthiness of `all([...])` over possibly-`None` strings is `truthy`.
* The single outbound effect, `aiosmtplib.send`, is modelled by a
  `Transport` oracle saying whether each of the two sends would succeed,
  plus an event trace (`List SendEvent`) recording every message actually
  handed to `aiosmtplib.send`, so "zero send attempts" is `trace = []`.
* `datetime.now().strftime(...)` is modelled as an explicit `ts : String`
  parameter (the server-side receipt timestamp).
* Raising `fastapi.HTTPException` is modelled with `Except HTTPException`.
  `HTTPException` subclasses `Exception`, so the blanket
  `except Exception` in `submit_contact_form` catches it; the model
  reflects this by replacing every inner failure with the generic detail.
-/

/-- `class ContactForm(BaseModel)` (src/main.py lines 25-30): the parsed,
validated submission. `company` defaults to the empty string. -/
structure ContactForm where
  name : String
  email : String
  company : String := ""
  subject : String
  message : String
  deriving DecidableEq, Repr

/-- Splits a character list at every occurrence of `c` (the pieces do not
contain `c`; n separators give n+1 pieces). -/
def splitOnChar (c : Char) : List Char → List (List Char)
  | [] => [[]]
  | x :: xs =>
    match splitOnChar c xs with
    | [] => if x = c then [[], []] else [[x]]
    | y :: ys => if x = c then [] :: y :: ys else (x :: y) :: ys

/-- Model of pydantic `EmailStr` syntax validation (the `email-validator`
library, a dependency, not repository code): exactly one `@`, a non-empty
local part, and a domain of at least two non-empty dot-separated labels.
The claims only need that validation rejects before any send, that
`"ada@example.com"` passes and `"not-an-email"` fails. -/
def isEmail (s : String) : Bool :=
  match splitOnChar '@' s.data with
  | [lp, domain] =>
      !lp.isEmpty && !domain.isEmpty &&
      (splitOnChar '.' domain).all (fun part => !part.isEmpty) &&
      2 ≤ (splitOnChar '.' domain).length
  | _ => false

/-- The raw JSON request body: each field either present or absent. -/
structure RawForm where
  name : Option String
  email : Option String
  company : Option String
  subject : Option String
  message : Option String
  deriving DecidableEq, Repr

/-- FastAPI request-body validation against `ContactForm`: the four
fields without defaults must be present, `email` must satisfy `EmailStr`;
`company` defaults to `""`. On failure FastAPI answers 422 before the
handler runs. -/
def parseContactForm (r : RawForm) : Option ContactForm :=
  match r.name, r.email, r.subject, r.message with
  | some n, some e, some s, some m =>
      if isEmail e then
        some { name := n, email := e, company := r.company.getD "",
               subject := s, message := m }
      else none
  | _, _, _, _ => none

/-- `EMAIL_CONFIG` (src/main.py lines 33-39). `username`/`password` come
from `os.getenv` and may be `None`. -/
structure EmailConfig where
  hostname : String
  port : Nat
  username : Option String
  password : Option String
  use_tls : Bool
  deriving DecidableEq, Repr

/-- Python truthiness of an optional string: `None` and `""` are falsy.
`all([EMAIL_CONFIG["username"], EMAIL_CONFIG["password"], RECIPIENT_EMAIL])`
is the conjunction of `truthy` over the three. -/
def truthy : Option String → Bool
  | none => false
  | some s => !s.isEmpty

/-- The headers and body of a MIME message handed to `aiosmtplib.send`. -/
structure EmailMessage where
  subject : String
  fromAddr : String
  toAddr : String
  replyTo : Option String
  htmlBody : String
  deriving DecidableEq, Repr

/-- A message actually handed to `aiosmtplib.send`, tagged by which of the
two send sites produced it. -/
inductive SendEvent where
  | notif (msg : EmailMessage)
  | conf (msg : EmailMessage)
  deriving DecidableEq, Repr

def isConfirmationEvent : SendEvent → Bool
  | SendEvent.conf _ => true
  | SendEvent.notif _ => false

/-- `fastapi.HTTPException(status_code=..., detail=...)`. -/
structure HTTPException where
  statusCode : Nat
  detail : String
  deriving DecidableEq, Repr

/-- The HTML body of the notification email (src/main.py lines 60-108),
an f-string over the submission fields and the receipt timestamp. -/
def notificationHtml (form : ContactForm) (ts : String) : String :=
  "\n<html>\n<body style=\"font-family: Arial, sans-serif; line-height: 1.6; color: #333;\">\n" ++
  "<div style=\"max-width: 600px; margin: 0 auto; padding: 20px;\">\n" ++
  "<h2 style=\"color: #7c3aed; border-bottom: 2px solid #7c3aed; padding-bottom: 10px;\">\n" ++
  "📬 New Contact Form Submission\n</h2>\n" ++
  "<div style=\"background: #f8fafc; padding: 20px; border-radius: 8px; margin: 20px 0;\">\n" ++
  "<table style=\"width: 100%; border-collapse: collapse;\">\n" ++
  "<tr>\n<td style=\"padding: 8px 0; font-weight: bold; color: #4a5568;\">Name:</td>\n" ++
  "<td style=\"padding: 8px 0;\">" ++ form.name ++ "</td>\n</tr>\n" ++
  "<tr>\n<td style=\"padding: 8px 0; font-weight: bold; color: #4a5568;\">Email:</td>\n" ++
  "<td style=\"padding: 8px 0;\"><a href=\"mailto:" ++ form.email ++ "\">" ++ form.email ++ "</a></td>\n</tr>\n" ++
  "<tr>\n<td style=\"padding: 8px 0; font-weight: bold; color: #4a5568;\">Company:</td>\n" ++
  "<td style=\"padding: 8px 0;\">" ++ (if form.company.isEmpty then "Not specified" else form.company) ++ "</td>\n</tr>\n" ++
  "<tr>\n<td style=\"padding: 8px 0; font-weight: bold; color: #4a5568;\">Subject:</td>\n" ++
  "<td style=\"padding: 8px 0;\"><span style=\"background: #7c3aed; color: white; padding: 4px 8px; border-radius: 4px; font-size: 12px;\">" ++ form.subject ++ "</span></td>\n</tr>\n" ++
  "</table>\n</div>\n" ++
  "<div style=\"background: white; border: 1px solid #e2e8f0; border-radius: 8px; padding: 20px; margin: 20px 0;\">\n" ++
  "<h3 style=\"margin-top: 0; color: #2d3748;\">Message:</h3>\n" ++
  "<p style=\"white-space: pre-line; line-height: 1.6;\">" ++ form.message ++ "</p>\n</div>\n" ++
  "<div style=\"background: #edf2f7; padding: 15px; border-radius: 8px; margin: 20px 0; text-align: center;\">\n" ++
  "<p style=\"margin: 0; font-size: 14px; color: #4a5568;\">\n📅 Submitted on " ++ ts ++ "\n</p>\n" ++
  "<p style=\"margin: 10px 0 0 0; font-size: 14px;\">\n" ++
  "<a href=\"mailto:" ++ form.email ++ "?subject=Re: " ++ form.subject ++ "\"\n" ++
  "style=\"background: #7c3aed; color: white; padding: 8px 16px; text-decoration: none; border-radius: 4px; display: inline-block;\">\n" ++
  "📧 Reply to " ++ form.name ++ "\n</a>\n</p>\n</div>\n</div>\n</body>\n</html>\n"

/-- The notification message built in `send_notification_email`
(src/main.py lines 54-111): To = the fixed recipient, Reply-To = the
submitter, Subject = fixed marker plus the submission subject. -/
def buildNotificationMessage (username recipient : String)
    (form : ContactForm) (ts : String) : EmailMessage :=
  { subject := "🔔 New Contact Form: " ++ form.subject
    fromAddr := username
    toAddr := recipient
    replyTo := some form.email
    htmlBody := notificationHtml form ts }

/-- The HTML body of the confirmation email (src/main.py lines 139-158). -/
def confirmationHtml (form : ContactForm) : String :=
  "\n<html>\n<body style=\"font-family: Arial, sans-serif; line-height: 1.6; color: #333;\">\n" ++
  "<div style=\"max-width: 600px; margin: 0 auto; padding: 20px;\">\n" ++
  "<h2 style=\"color: #10b981;\">✅ Thanks for reaching out, " ++ form.name ++ "!</h2>\n" ++
  "<p>I\x27ve received your message about <strong>\"" ++ form.subject ++ "\"</strong> and will get back to you soon.</p>\n" ++
  "<div style=\"background: #f0f9ff; border-left: 4px solid #3b82f6; padding: 15px; margin: 20px 0;\">\n" ++
  "<h4 style=\"margin-top: 0;\">Your message:</h4>\n" ++
  "<p style=\"white-space: pre-line;\">" ++ form.message ++ "</p>\n</div>\n" ++
  "<p>I typically respond within <strong>24-48 hours</strong>.</p>\n" ++
  "<p>Best regards! 🚀</p>\n</div>\n</body>\n</html>\n"

/-- The confirmation message built in `send_confirmation_email`
(src/main.py lines 132-161): To = the submitter, fixed friendly subject,
no Reply-To header. -/
def buildConfirmationMessage (username : String) (form : ContactForm) :
    EmailMessage :=
  { subject := "✅ Thanks for reaching out!"
    fromAddr := username
    toAddr := form.email
    replyTo := none
    htmlBody := confirmationHtml form }

/-- Oracle for the outcome of each `aiosmtplib.send` call, were it
attempted: `true` means the SMTP transaction succeeds, `false` means it
raises a transport exception. -/
structure Transport where
  notifSendOk : Bool
  confSendOk : Bool
  deriving DecidableEq, Repr

/-- `send_notification_email` (src/main.py lines 43-127).
If any of username / password / recipient is falsy, raises
`HTTPException(500, "Email configuration is incomplete. ...")` before any
send.  Otherwise builds the notification message and hands it to
`aiosmtplib.send` (then `try ... except Exception` turns a transport
exception into the return value `False`; success returns `True`).
The returned trace lists the messages handed to `aiosmtplib.send`. -/
def send_notification_email (cfg : EmailConfig) (rec : Option String)
    (tr : Transport) (form : ContactForm) (ts : String) :
    Except HTTPException Bool × List SendEvent :=
  if !(truthy cfg.username && truthy cfg.password && truthy rec) then
    (Except.error
      { statusCode := 500
        detail := "Email configuration is incomplete. Check your environment variables." },
     [])
  else
    let msg := buildNotificationMessage (cfg.username.getD "") (rec.getD "") form ts
    if tr.notifSendOk then
      (Except.ok true, [SendEvent.notif msg])
    else
      (Except.ok false, [SendEvent.notif msg])

/-- `send_confirmation_email` (src/main.py lines 129-176).
The whole body is inside `try ... except Exception: return False`, so a
transport failure becomes the return value `False`; no exception escapes
and there is no configuration guard here. -/
def send_confirmation_email (cfg : EmailConfig) (tr : Transport)
    (form : ContactForm) : Bool × List SendEvent :=
  let msg := buildConfirmationMessage (cfg.username.getD "") form
  if tr.confSendOk then
    (true, [SendEvent.conf msg])
  else
    (false, [SendEvent.conf msg])

structure SuccessDetails where
  notification_sent : Bool
  confirmation_sent : Bool
  deriving DecidableEq, Repr

/-- The JSON body returned on success (src/main.py lines 195-202). -/
structure SuccessResponse where
  success : Bool
  message : String
  details : SuccessDetails
  deriving DecidableEq, Repr

/-- `submit_contact_form` (src/main.py lines 178-209), after request-body
validation.  The whole handler body is wrapped in
`try ... except Exception`; since `fastapi.HTTPException` subclasses
`Exception`, both the configuration `HTTPException` raised inside
`send_notification_email` and the handler-local
`HTTPException(500, "Failed to send notification email. Please try again.")`
raised when the notification send returned `False` are caught by that
blanket handler, which re-raises
`HTTPException(500, "An unexpected error occurred. Please try again later.")`.
The model therefore maps every inner failure to the generic detail. -/
def submit_contact_form (cfg : EmailConfig) (rec : Option String)
    (tr : Transport) (form : ContactForm) (ts : String) :
    Except HTTPException SuccessResponse × List SendEvent :=
  let n := send_notification_email cfg rec tr form ts
  match n.1 with
  | Except.error _ =>
      (Except.error
        { statusCode := 500
          detail := "An unexpected error occurred. Please try again later." },
       n.2)
  | Except.ok notificationSent =>
      if !notificationSent then
        (Except.error
          { statusCode := 500
            detail := "An unexpected error occurred. Please try again later." },
         n.2)
      else
        let c := send_confirmation_email cfg tr form
        (Except.ok
          { success := true
            message := "Your message has been sent successfully!"
            details := { notification_sent := notificationSent
                         confirmation_sent := c.1 } },
         n.2 ++ c.2)

/-- The caller-visible HTTP response of `POST /api/contact`. -/
inductive ApiResponse where
  | ok (body : SuccessResponse)
  | httpError (statusCode : Nat) (detail : String)
  | validationError (statusCode : Nat)
  deriving DecidableEq, Repr

/-- The full request cycle of `POST /api/contact`: FastAPI validates the
body against `ContactForm` (422 on failure, handler never runs), then the
handler `submit_contact_form` runs; a raised `HTTPException` becomes an
error response with its status and detail. -/
def handle_contact_request (cfg : EmailConfig) (rec : Option String)
    (tr : Transport) (raw : RawForm) (ts : String) :
    ApiResponse × List SendEvent :=
  match parseContactForm raw with
  | none => (ApiResponse.validationError 422, [])
  | some form =>
      match submit_contact_form cfg rec tr form ts with
      | (Except.ok r, evs) => (ApiResponse.ok r, evs)
      | (Except.error e, evs) => (ApiResponse.httpError e.statusCode e.detail, evs)

/-- Concrete fixture: the submission from the spec scenario. -/
def adaRaw : RawForm :=
  { name := some "Ada", email := some "ada@example.com", company := some "",
    subject := some "Hello", message := some "Hi there" }

def adaForm : ContactForm :=
  { name := "Ada", email := "ada@example.com", company := "",
    subject := "Hello", message := "Hi there" }

/-- Concrete fixture: a complete configuration. -/
def fullCfg : EmailConfig :=
  { hostname := "smtp.gmail.com", port := 587,
    username := some "owner@gmail.com", password := some "secret",
    use_tls := true }

/-- Concrete fixture: both sends would succeed. -/
def okTransport : Transport := { notifSendOk := true, confSendOk := true }

/-- C1: the claim says the three failure causes (configuration incomplete,
notification send failed, other unexpected error) carry distinct `detail`
messages the caller can tell apart.  In the code the blanket
`except Exception` in `submit_contact_form` also catches the two specific
`HTTPException`s, so a missing configuration and a notification transport
failure both reach the caller as the same generic detail
"An unexpected error occurred. Please try again later." -/
theorem spec_C1_failure_details_not_distinct :
    (handle_contact_request { fullCfg with username := none }
        (some "owner@gmail.com") okTransport adaRaw "June 01, 2025 at 10:00 AM").1
      = ApiResponse.httpError 500
          "An unexpected error occurred. Please try again later."
  ∧ (handle_contact_request fullCfg (some "owner@gmail.com")
        { notifSendOk := false, confSendOk := true } adaRaw
        "June 01, 2025 at 10:00 AM").1
      = ApiResponse.httpError 500
          "An unexpected error occurred. Please try again later." :=
  ⟨rfl, rfl⟩

/-- C2 counterexample: a submission whose required `name` field is present
but empty passes pydantic validation (a `str` field accepts `""`), reaches
both sends (two send attempts) and returns success — it is not rejected
with a validation error. -/
theorem spec_C2_empty_name_reaches_sends :
    (handle_contact_request fullCfg (some "owner@gmail.com") okTransport
        { adaRaw with name := some "" } "June 01, 2025 at 10:00 AM").1
      = ApiResponse.ok
          { success := true
            message := "Your message has been sent successfully!"
            details := { notification_sent := true, confirmation_sent := true } }
  ∧ (handle_contact_request fullCfg (some "owner@gmail.com") okTransport
        { adaRaw with name := some "" } "June 01, 2025 at 10:00 AM").2.length = 2 :=
  ⟨rfl, rfl⟩

/-- C2 (amended): a submission in which a required field (name, email,
subject, or message) is absent from the request body is rejected with a
422 validation error before the handler runs, with zero send attempts;
empty-string values, however, pass validation. -/
theorem spec_C2_missing_required_field_rejected
    (cfg : EmailConfig) (rec : Option String) (tr : Transport)
    (raw : RawForm) (ts : String)
    (h : raw.name = none ∨ raw.email = none ∨ raw.subject = none ∨
         raw.message = none) :
    handle_contact_request cfg rec tr raw ts =
      (ApiResponse.validationError 422, []) := by
  rcases raw with ⟨n, e, c, s, m⟩
  cases n <;> cases e <;> cases s <;> cases m <;>
    first
      | rfl
      | simp_all

/-- C2 witness: the Ada submission with the `name` field absent is
rejected with 422 and no sends. -/
theorem spec_C2_missing_required_field_rejected_witness :
    ({ adaRaw with name := none } : RawForm).name = none ∧
    handle_contact_request fullCfg (some "owner@gmail.com") okTransport
      { adaRaw with name := none } "ts" =
      (ApiResponse.validationError 422, []) :=
  ⟨rfl, spec_C2_missing_required_field_rejected _ _ _ _ _ (Or.inl rfl)⟩

/-- C3: with complete configuration, if the notification send fails with a
transport error, the whole submit operation fails with an HTTP 500
response and no confirmation send is ever attempted. -/
theorem spec_C3_notification_failure_aborts
    (cfg : EmailConfig) (rec : Option String) (tr : Transport)
    (form : ContactForm) (ts : String)
    (hu : truthy cfg.username = true) (hp : truthy cfg.password = true)
    (hr : truthy rec = true) (hn : tr.notifSendOk = false) :
    (submit_contact_form cfg rec tr form ts).1 =
      Except.error
        { statusCode := 500
          detail := "An unexpected error occurred. Please try again later." } ∧
    ∀ ev ∈ (submit_contact_form cfg rec tr form ts).2,
      isConfirmationEvent ev = false := by
  simp [submit_contact_form, send_notification_email, hu, hp, hr, hn,
        isConfirmationEvent]

/-- C3 witness at a concrete configuration, submission and failing
notification transport. -/
theorem spec_C3_notification_failure_aborts_witness :
    truthy fullCfg.username = true ∧
    ((submit_contact_form fullCfg (some "owner@gmail.com")
        { notifSendOk := false, confSendOk := true } adaForm "ts").1 =
      Except.error
        { statusCode := 500
          detail := "An unexpected error occurred. Please try again later." } ∧
     ∀ ev ∈ (submit_contact_form fullCfg (some "owner@gmail.com")
        { notifSendOk := false, confSendOk := true } adaForm "ts").2,
      isConfirmationEvent ev = false) :=
  ⟨rfl, spec_C3_notification_failure_aborts _ _ _ _ _ rfl rfl rfl rfl⟩

/-- C4: with complete configuration, when the notification send succeeds
and the confirmation send fails, the operation still returns the success
body with `success: true`, `notification_sent: true`,
`confirmation_sent: false`. -/
theorem spec_C4_confirmation_failure_is_best_effort
    (cfg : EmailConfig) (rec : Option String) (tr : Transport)
    (form : ContactForm) (ts : String)
    (hu : truthy cfg.username = true) (hp : truthy cfg.password = true)
    (hr : truthy rec = true) (hn : tr.notifSendOk = true)
    (hc : tr.confSendOk = false) :
    (submit_contact_form cfg rec tr form ts).1 =
      Except.ok
        { success := true
          message := "Your message has been sent successfully!"
          details := { notification_sent := true, confirmation_sent := false } } := by
  simp [submit_contact_form, send_notification_email, send_confirmation_email,
        hu, hp, hr, hn, hc]

/-- C4 witness at a concrete configuration and transport. -/
theorem spec_C4_confirmation_failure_is_best_effort_witness :
    truthy fullCfg.username = true ∧
    (submit_contact_form fullCfg (some "owner@gmail.com")
        { notifSendOk := true, confSendOk := false } adaForm "ts").1 =
      Except.ok
        { success := true
          message := "Your message has been sent successfully!"
          details := { notification_sent := true, confirmation_sent := false } } :=
  ⟨rfl, spec_C4_confirmation_failure_is_best_effort _ _ _ _ _ rfl rfl rfl rfl rfl⟩

/-- C5: if any one of username, password or recipient is missing or empty,
`send_notification_email` raises the configuration `HTTPException` with
zero send attempts, and the whole submit operation performs zero send
attempts. -/
theorem spec_C5_missing_config_no_sends
    (cfg : EmailConfig) (rec : Option String) (tr : Transport)
    (form : ContactForm) (ts : String)
    (h : truthy cfg.username = false ∨ truthy cfg.password = false ∨
         truthy rec = false) :
    send_notification_email cfg rec tr form ts =
      (Except.error
        { statusCode := 500
          detail := "Email configuration is incomplete. Check your environment variables." },
       []) ∧
    (submit_contact_form cfg rec tr form ts).2 = [] := by
  have hg : (truthy cfg.username && truthy cfg.password && truthy rec) = false := by
    rcases h with h | h | h <;> simp [h]
  constructor
  · simp [send_notification_email, hg]
  · simp [submit_contact_form, send_notification_email, hg]

/-- C5 witness: username unset (`None`); the same theorem applies with
password or recipient missing instead. -/
theorem spec_C5_missing_config_no_sends_witness :
    truthy ({ fullCfg with username := none } : EmailConfig).username = false ∧
    (send_notification_email { fullCfg with username := none }
        (some "owner@gmail.com") okTransport adaForm "ts" =
      (Except.error
        { statusCode := 500
          detail := "Email configuration is incomplete. Check your environment variables." },
       []) ∧
     (submit_contact_form { fullCfg with username := none }
        (some "owner@gmail.com") okTransport adaForm "ts").2 = []) :=
  ⟨rfl, spec_C5_missing_config_no_sends _ _ _ _ _ (Or.inl rfl)⟩

/-- C6: a submission whose email field fails syntax validation is rejected
with a 422 validation error before the handler runs: zero send attempts. -/
theorem spec_C6_invalid_email_rejected
    (cfg : EmailConfig) (rec : Option String) (tr : Transport)
    (raw : RawForm) (ts : String) (e : String)
    (he : raw.email = some e) (hv : isEmail e = false) :
    handle_contact_request cfg rec tr raw ts =
      (ApiResponse.validationError 422, []) := by
  rcases raw with ⟨n, em, c, s, m⟩
  change em = some e at he
  subst he
  cases n <;> cases s <;> cases m <;>
    simp_all [handle_contact_request, parseContactForm]

/-- C6 witness: the spec scenario `email: "not-an-email"` is rejected with
422 and zero sends. -/
theorem spec_C6_invalid_email_rejected_witness :
    isEmail "not-an-email" = false ∧
    handle_contact_request fullCfg (some "owner@gmail.com") okTransport
      { adaRaw with email := some "not-an-email" } "ts" =
      (ApiResponse.validationError 422, []) :=
  ⟨rfl, spec_C6_invalid_email_rejected _ _ _ _ _ "not-an-email" rfl rfl⟩

/-- C7: the concrete Ada scenario with complete configuration and both
sends succeeding returns HTTP 200 with exactly the specified body. -/
theorem spec_C7_ada_scenario :
    (handle_contact_request fullCfg (some "owner@gmail.com") okTransport adaRaw
        "June 01, 2025 at 10:00 AM").1 =
      ApiResponse.ok
        { success := true
          message := "Your message has been sent successfully!"
          details := { notification_sent := true, confirmation_sent := true } } :=
  rfl

/-- C8: with complete configuration, the notification message handed to
the transport is exactly the one built by `buildNotificationMessage`, whose
To header is the fixed configured recipient, whose Reply-To header is the
submitter address, and whose Subject is the fixed marker followed by the
submission subject. -/
theorem spec_C8_notification_headers
    (cfg : EmailConfig) (rec : Option String) (tr : Transport)
    (form : ContactForm) (ts : String)
    (hu : truthy cfg.username = true) (hp : truthy cfg.password = true)
    (hr : truthy rec = true) :
    (send_notification_email cfg rec tr form ts).2 =
      [SendEvent.notif
        (buildNotificationMessage (cfg.username.getD "") (rec.getD "") form ts)] ∧
    (buildNotificationMessage (cfg.username.getD "") (rec.getD "") form ts).toAddr =
      rec.getD "" ∧
    (buildNotificationMessage (cfg.username.getD "") (rec.getD "") form ts).replyTo =
      some form.email ∧
    (buildNotificationMessage (cfg.username.getD "") (rec.getD "") form ts).subject =
      "🔔 New Contact Form: " ++ form.subject := by
  refine ⟨?_, rfl, rfl, rfl⟩
  cases hn : tr.notifSendOk <;>
    simp [send_notification_email, hu, hp, hr, hn]

/-- C8 witness at a concrete configuration and submission. -/
theorem spec_C8_notification_headers_witness :
    truthy fullCfg.username = true ∧
    ((send_notification_email fullCfg (some "owner@gmail.com") okTransport
        adaForm "ts").2 =
      [SendEvent.notif
        (buildNotificationMessage (fullCfg.username.getD "")
          ((some "owner@gmail.com").getD "") adaForm "ts")] ∧
     (buildNotificationMessage (fullCfg.username.getD "")
        ((some "owner@gmail.com").getD "") adaForm "ts").toAddr =
      (some "owner@gmail.com").getD "" ∧
     (buildNotificationMessage (fullCfg.username.getD "")
        ((some "owner@gmail.com").getD "") adaForm "ts").replyTo =
      some adaForm.email ∧
     (buildNotificationMessage (fullCfg.username.getD "")
        ((some "owner@gmail.com").getD "") adaForm "ts").subject =
      "🔔 New Contact Form: " ++ adaForm.subject) :=
  ⟨rfl, spec_C8_notification_headers _ _ _ _ _ rfl rfl rfl⟩

/-- C9: every 200 response of the endpoint has `notification_sent = true`
in its details; `success: true` with `notification_sent: false` is
unreachable. -/
theorem spec_C9_success_implies_notification_sent
    (cfg : EmailConfig) (rec : Option String) (tr : Transport)
    (raw : RawForm) (ts : String) (r : SuccessResponse)
    (h : (handle_contact_request cfg rec tr raw ts).1 = ApiResponse.ok r) :
    r.details.notification_sent = true := by
  unfold handle_contact_request at h
  cases hpf : parseContactForm raw <;> rw [hpf] at h
  · simp at h
  case some form =>
    by_cases hg :
        (truthy cfg.username && truthy cfg.password && truthy rec) = true
    · cases hn : tr.notifSendOk
      · simp [submit_contact_form, send_notification_email, hg, hn] at h
      · simp [submit_contact_form, send_notification_email,
              send_confirmation_email, hg, hn] at h
        subst h
        rfl
    · rw [Bool.not_eq_true] at hg
      simp [submit_contact_form, send_notification_email, hg] at h

/-- C9 witness: apply the invariant at a concrete 200 response. -/
theorem spec_C9_success_implies_notification_sent_witness :
    ({ success := true
       message := "Your message has been sent successfully!"
       details := { notification_sent := true, confirmation_sent := true } } :
        SuccessResponse).details.notification_sent = true :=
  spec_C9_success_implies_notification_sent fullCfg (some "owner@gmail.com")
    okTransport adaRaw "ts" _ rfl

/-- C10: with complete configuration neither send operation propagates an
exception: the notification send returns `Except.ok` of the transport
outcome (`False` on transport failure, never an error), and the
confirmation send always returns its boolean outcome. -/
theorem spec_C10_sends_return_booleans
    (cfg : EmailConfig) (rec : Option String) (tr : Transport)
    (form : ContactForm) (ts : String)
    (hu : truthy cfg.username = true) (hp : truthy cfg.password = true)
    (hr : truthy rec = true) :
    (send_notification_email cfg rec tr form ts).1 = Except.ok tr.notifSendOk ∧
    (send_confirmation_email cfg tr form).1 = tr.confSendOk := by
  cases hn : tr.notifSendOk <;> cases hc : tr.confSendOk <;>
    simp [send_notification_email, send_confirmation_email, hu, hp, hr, hn, hc]

/-- C10 witness at a concrete configuration and transport. -/
theorem spec_C10_sends_return_booleans_witness :
    truthy fullCfg.username = true ∧
    ((send_notification_email fullCfg (some "owner@gmail.com") okTransport
        adaForm "ts").1 = Except.ok okTransport.notifSendOk ∧
     (send_confirmation_email fullCfg okTransport adaForm).1 =
       okTransport.confSendOk) :=
  ⟨rfl, spec_C10_sends_return_booleans _ _ _ _ _ rfl rfl rfl⟩
